import Mathlib

/-!
Shallow embedding of the safety pipeline of the Health_AI_MVP backend:
the five-signal risk scorer (`app/services/risk_scorer.py`), the cascading
triage evaluator (`app/services/triage_evaluator.py`), the session model and
its mutating operations (`app/models/session.py`, `app/services/session_service.py`,
`app/repositories/memory_session.py`), and the per-turn orchestration pipeline
(`app/routers/chat.py`, `send_message`).

Modelling conventions:
- Python strings are Lean `String`s; `needle in haystack` is `containsSub`
  (substring occurrence on character lists); `str.lower()` is a `Char.toLower`
  map (the fixed phrase lists are ASCII, where the two coincide).
- Wall-clock instants (`datetime.now(timezone.utc)`) are explicit `now : Nat`
  parameters, in seconds; `elapsed_minutes > max_minutes` (a float comparison
  on `total_seconds()/60.0`) is modelled by the exact integer comparison
  `60 * max_minutes < elapsed_seconds`.
- Python ints are `Int` where values may be arbitrary (risk scores stored in a
  session) and `Nat` where the source only ever produces non-negative values.
- The keyword lexicon and the crisis-resource list are loaded from JSON data
  files that are external to the core; they are parameters of the embedded
  functions, as are the anonymizer, LLM provider and response validator that
  the orchestrator calls.
- The float comparison `upper_ratio > 0.30` on a ratio of character counts is
  modelled by the exact rational comparison `10 * upper > 3 * alpha`.
-/

namespace HealthAI

/-! ## String utilities (Python `in`, `lower`, `count`) -/

/-- `isPrefixL needle hay` : `needle` is a prefix of `hay` (character lists). -/
def isPrefixL : List Char → List Char → Bool
  | [], _ => true
  | _ :: _, [] => false
  | c :: cs, d :: ds => c == d && isPrefixL cs ds

/-- Python's substring test `needle in haystack` on character lists. -/
def containsSub (haystack needle : List Char) : Bool :=
  match haystack with
  | [] => needle.isEmpty
  | _ :: rest => isPrefixL needle haystack || containsSub rest needle

/-- Python's `str.lower()` (ASCII-faithful). -/
def lowerChars (s : List Char) : List Char := s.map Char.toLower

/-- Python's `str.count(c)` for a single character. -/
def countChar (s : List Char) (c : Char) : Nat :=
  (s.filter (fun d => d == c)).length

/-! ## Enumerations (`app/models/enums.py`) -/

/-- `RiskLevel` from `app/models/enums.py`. -/
inductive RiskLevel
  | low
  | medium
  | high
  | critical
deriving DecidableEq, Repr

/-- `HandoffReason` from `app/models/enums.py`. -/
inductive HandoffReason
  | user_requested
  | critical_risk
  | high_risk
  | manual_trigger
deriving DecidableEq, Repr

/-! ## Session data model (`app/models/session.py`) -/

/-- `MessageRecord` dataclass: one message in a session's history. -/
structure MessageRecord where
  role : String
  content : String
  risk_score : Option Int
  timestamp : Nat
deriving DecidableEq, Repr

/-- `Session` dataclass (`app/models/session.py`).  `triage_status` is never
read by the core pipeline and is omitted. -/
structure Session where
  id : String
  messages : List MessageRecord
  risk_scores : List Int
  cumulative_risk : Int
  current_risk_level : RiskLevel
  triage_activated : Bool
  human_handoff : Bool
  high_risk_count : Nat
  created_at : Nat
  last_activity : Nat
deriving DecidableEq, Repr

/-- A freshly constructed `Session(id=...)` with all dataclass defaults,
created at instant `now`. -/
def Session.new (id : String) (now : Nat) : Session :=
  { id := id
    messages := []
    risk_scores := []
    cumulative_risk := 0
    current_risk_level := .low
    triage_activated := false
    human_handoff := false
    high_risk_count := 0
    created_at := now
    last_activity := now }

/-- `Session.message_count` property. -/
def Session.message_count (s : Session) : Nat := s.messages.length

/-- `Session.add_message`: append a message record; when a risk score is
present, also append it to `risk_scores` and add it to `cumulative_risk`. -/
def Session.add_message (s : Session) (now : Nat) (role content : String)
    (risk_score : Option Int) : Session :=
  let s1 : Session :=
    { s with
      messages := s.messages ++ [{ role := role, content := content,
                                   risk_score := risk_score, timestamp := now }]
      last_activity := now }
  match risk_score with
  | some v =>
      { s1 with risk_scores := s1.risk_scores ++ [v]
                cumulative_risk := s1.cumulative_risk + v }
  | none => s1

/-- `Session.update_risk`: set the current level, incrementing the high-risk
counter when the level is HIGH or CRITICAL. -/
def Session.update_risk (s : Session) (level : RiskLevel) : Session :=
  { s with
    current_risk_level := level
    high_risk_count :=
      if level = .high ∨ level = .critical then s.high_risk_count + 1
      else s.high_risk_count }

/-! ## Configuration (`app/config.py`, the fields the core reads) -/

/-- The `Settings` fields consumed by the scorer, evaluator and session
service. -/
structure Settings where
  risk_threshold_high : Int
  risk_threshold_critical : Int
  session_max_messages_before_checkin : Nat
  max_session_duration_minutes : Nat
deriving DecidableEq, Repr

/-- The defaults declared in `app/config.py`. -/
def defaultSettings : Settings :=
  { risk_threshold_high := 60
    risk_threshold_critical := 80
    session_max_messages_before_checkin := 15
    max_session_duration_minutes := 60 }

/-! ## Risk scorer (`app/services/risk_scorer.py`) -/

def MAX_KEYWORD_SCORE : Nat := 30
def MAX_SENTIMENT_SCORE : Nat := 20
def MAX_BEHAVIORAL_SCORE : Nat := 20
def MAX_ESCALATION_SCORE : Nat := 15
def MAX_HISTORY_SCORE : Nat := 15
def MAX_TOTAL_SCORE : Nat := 100

def LONG_MESSAGE_THRESHOLD : Nat := 300
def PUNCTUATION_THRESHOLD : Nat := 3

def LONG_MESSAGE_POINTS : Nat := 5
def PUNCTUATION_POINTS : Nat := 5
def CAPS_POINTS : Nat := 10

def HIGH_RISK_COUNT_THRESHOLD : Nat := 2
def CUMULATIVE_RISK_THRESHOLD : Int := 100
def AVERAGE_RISK_THRESHOLD : Int := 30
def MIN_MESSAGES_FOR_AVERAGE : Nat := 5

def HIGH_RISK_HISTORY_POINTS : Nat := 15
def CUMULATIVE_HISTORY_POINTS : Nat := 10
def AVERAGE_HISTORY_POINTS : Nat := 8

def NEGATIVE_SENTIMENT_WORDS : List String :=
  ["terrible", "awful", "worst", "horrible", "miserable",
   "worthless", "useless", "empty", "numb", "broken",
   "crying", "panic", "nightmare", "suffering", "agony",
   "hate", "disgusting", "pathetic", "failure", "stupid"]

def SENTIMENT_POINTS_PER_WORD : Nat := 5

def ESCALATION_PHRASES : List String :=
  ["i can't anymore",
   "there's no point",
   "what's the use",
   "i'm done",
   "nothing matters",
   "i can't breathe",
   "i give up",
   "no one understands"]

/-- One tier of the keyword lexicon (`risk_keywords.json`): a maximum weight
and a set of trigger phrases.  Tier names are only logged and are omitted;
Python dict iteration presents the tiers in insertion order. -/
structure KeywordTier where
  weight_max : Nat
  keywords : List String
deriving DecidableEq, Repr

/-- `RiskScorer._score_keywords`: highest matching tier weight (not
cumulative), capped at 30. -/
def scoreKeywords (tiers : List KeywordTier) (lower_message : List Char) : Nat :=
  let highest_weight := tiers.foldl
    (fun acc tier =>
      if tier.keywords.any (fun kw => containsSub lower_message kw.data) then
        max acc tier.weight_max
      else acc) 0
  min highest_weight MAX_KEYWORD_SCORE

/-- `RiskScorer._score_sentiment`: 5 points per distinct negative-sentiment
word found as a substring, capped at 20. -/
def scoreSentiment (lower_message : List Char) : Nat :=
  let count :=
    (NEGATIVE_SENTIMENT_WORDS.filter (fun w => containsSub lower_message w.data)).length
  min (count * SENTIMENT_POINTS_PER_WORD) MAX_SENTIMENT_SCORE

/-- The `len(message) > 300` sub-check of `_score_behavioral`. -/
def behavioralLengthPoints (message : List Char) : Nat :=
  if message.length > LONG_MESSAGE_THRESHOLD then LONG_MESSAGE_POINTS else 0

/-- The `message.count("!") + message.count("?") >= 3` sub-check of
`_score_behavioral`. -/
def behavioralPunctuationPoints (message : List Char) : Nat :=
  if countChar message '!' + countChar message '?' ≥ PUNCTUATION_THRESHOLD then
    PUNCTUATION_POINTS
  else 0

/-- The uppercase-ratio sub-check of `_score_behavioral`: guarded by
`if alpha_chars:`, so an empty alphabetic list contributes 0 without any
division; `upper/alpha > 0.30` is the exact comparison `10*upper > 3*alpha`. -/
def behavioralCapsPoints (message : List Char) : Nat :=
  let alpha_chars := message.filter Char.isAlpha
  if alpha_chars.length ≠ 0 ∧
      10 * (alpha_chars.filter Char.isUpper).length > 3 * alpha_chars.length then
    CAPS_POINTS
  else 0

/-- `RiskScorer._score_behavioral`: the three sub-checks summed, capped at 20. -/
def scoreBehavioral (message : List Char) : Nat :=
  min (behavioralLengthPoints message + behavioralPunctuationPoints message
        + behavioralCapsPoints message)
    MAX_BEHAVIORAL_SCORE

/-- `RiskScorer._score_escalation`: any single escalation-phrase match awards
the full 15. -/
def scoreEscalation (lower_message : List Char) : Nat :=
  if ESCALATION_PHRASES.any (fun p => containsSub lower_message p.data) then
    MAX_ESCALATION_SCORE
  else 0

/-- `RiskScorer._score_history`: ordered first-match on the session's stored
history fields.  The float average `sum/len > 30` is the exact integer
comparison `sum > 30*len` (len ≥ 5 > 0 in that branch). -/
def scoreHistory (session : Session) : Nat :=
  if session.high_risk_count ≥ HIGH_RISK_COUNT_THRESHOLD then
    HIGH_RISK_HISTORY_POINTS
  else if session.cumulative_risk > CUMULATIVE_RISK_THRESHOLD then
    CUMULATIVE_HISTORY_POINTS
  else if session.risk_scores.length ≥ MIN_MESSAGES_FOR_AVERAGE ∧
      session.risk_scores.sum > AVERAGE_RISK_THRESHOLD * (session.risk_scores.length : Int) then
    AVERAGE_HISTORY_POINTS
  else 0

/-- `RiskScorer.compute`: the five signals summed, clamped to 100.  The
keyword lexicon (loaded from JSON at startup) is a parameter. -/
def compute (tiers : List KeywordTier) (message : String) (session : Session) : Nat :=
  min (scoreKeywords tiers (lowerChars message.data)
        + scoreSentiment (lowerChars message.data)
        + scoreBehavioral message.data
        + scoreEscalation (lowerChars message.data)
        + scoreHistory session)
    MAX_TOTAL_SCORE

/-- `RiskScorer.classify`: threshold bands with inclusive lower bounds. -/
def classify (settings : Settings) (score : Int) : RiskLevel :=
  if score ≥ settings.risk_threshold_critical then .critical
  else if score ≥ settings.risk_threshold_high then .high
  else if score ≥ 30 then .medium
  else .low

/-! ## Triage evaluator (`app/services/triage_evaluator.py`) -/

def HUMAN_REQUEST_PHRASES : List String :=
  ["talk to a person",
   "real person",
   "talk to someone",
   "speak to a human",
   "want a therapist",
   "need a professional",
   "talk to a doctor",
   "need help now",
   "speak to someone real",
   "hablar con alguien",
   "necesito hablar con alguien"]

def RESPONSE_USER_REQUESTED : String :=
  "Of course. I'm connecting you with a professional right now. They will have the context of our conversation so you don't have to repeat anything. Please stay with me while I connect you."

def RESPONSE_CRITICAL : String :=
  "I hear you, and what you're feeling matters. I want to make sure you get the right support right now. I'm connecting you with a professional immediately.\n\nIf you need to talk to someone right now, these lines are available 24/7:\n• Linea de la Vida: 800-911-2000 (free, national)\n• SAPTEL: 55 5259-8121\n• Emergency: 911\n\nA professional is being notified right now. Please stay here."

def RESPONSE_HIGH_RISK : String :=
  "Thank you for sharing that with me. I think it would be really helpful for you to talk with one of our professionals. I'm going to connect you now — they'll be able to see our conversation so you can continue from where we are."

def RESPONSE_LONG_SESSION : String :=
  "We've been talking for a while, and I want to check in with you. How are you feeling right now? If you'd like to talk to a professional at any point, just let me know."

/-- `CrisisResource` schema (`app/models/schemas.py`): static reference data. -/
structure CrisisResource where
  name : String
  number : String
  hours : String
  type : String
  description : String
deriving DecidableEq, Repr

/-- `TriageResult` dataclass, with the dataclass defaults (an inert result). -/
structure TriageResult where
  triage_activated : Bool := false
  human_handoff : Bool := false
  crisis_resources : List CrisisResource := []
  override_response : Option String := none
  handoff_reason : Option HandoffReason := none
deriving DecidableEq, Repr

/-- Rule 1, `_check_user_requests_human`: the loop returns the same result on
whichever phrase matches first, so it equals an any-match test. -/
def checkUserRequestsHuman (message : String) : Option TriageResult :=
  if HUMAN_REQUEST_PHRASES.any (fun p => containsSub (lowerChars message.data) p.data) then
    some { triage_activated := true
           human_handoff := true
           override_response := some RESPONSE_USER_REQUESTED
           handoff_reason := some .user_requested }
  else none

/-- Rule 2, `_check_critical_risk`.  The crisis-resource list (loaded from
JSON at startup) is a parameter. -/
def checkCriticalRisk (settings : Settings) (resources : List CrisisResource)
    (risk_score : Int) : Option TriageResult :=
  if risk_score ≥ settings.risk_threshold_critical then
    some { triage_activated := true
           human_handoff := true
           crisis_resources := resources
           override_response := some RESPONSE_CRITICAL
           handoff_reason := some .critical_risk }
  else none

/-- Rule 3, `_check_high_risk`. -/
def checkHighRisk (settings : Settings) (risk_score : Int) : Option TriageResult :=
  if risk_score ≥ settings.risk_threshold_high then
    some { triage_activated := true
           human_handoff := true
           override_response := some RESPONSE_HIGH_RISK
           handoff_reason := some .high_risk }
  else none

/-- Rule 4, `_check_long_session`: fires on message count alone, and only when
triage has never been activated; it does not activate triage or handoff. -/
def checkLongSession (settings : Settings) (session : Session) : Option TriageResult :=
  if session.message_count ≥ settings.session_max_messages_before_checkin ∧
      session.triage_activated = false then
    some { triage_activated := false
           human_handoff := false
           override_response := some RESPONSE_LONG_SESSION }
  else none

/-- `TriageEvaluator.evaluate`: the four rules in fixed priority order,
first match wins; otherwise the inert `TriageResult()`.  `risk_level` is
received but (apart from logging) never read. -/
def evaluate (settings : Settings) (resources : List CrisisResource)
    (message : String) (risk_score : Int) (_risk_level : RiskLevel)
    (session : Session) : TriageResult :=
  match checkUserRequestsHuman message with
  | some result => result
  | none =>
    match checkCriticalRisk settings resources risk_score with
    | some result => result
    | none =>
      match checkHighRisk settings risk_score with
      | some result => result
      | none =>
        match checkLongSession settings session with
        | some result => result
        | none => {}

/-! ## Session store and service
(`app/repositories/memory_session.py`, `app/services/session_service.py`)

The store is the repository's dict as an association list; every public
operation receives the current instant `now` (both internal clock reads of a
single call are modelled as the same instant). -/

/-- The repository's `_sessions` dict. -/
abbrev Store := List (String × Session)

/-- Dict lookup `self._sessions.get(session_id)`. -/
def Store.find (store : Store) (sid : String) : Option Session :=
  (List.find? (fun p => p.1 == sid) store).map (fun p => p.2)

/-- Dict deletion `del self._sessions[session_id]`. -/
def Store.erase (store : Store) (sid : String) : Store :=
  List.filter (fun p => !(p.1 == sid)) store

/-- Dict insertion `self._sessions[session.id] = session`. -/
def Store.put (store : Store) (session : Session) : Store :=
  if (List.find? (fun p => p.1 == session.id) store).isSome then
    List.map (fun p => if p.1 == session.id then (p.1, session) else p) store
  else store ++ [(session.id, session)]

/-- `_is_expired` (repository) and the identical elapsed-time test of
`SessionService._check_duration`: strictly more than the configured number of
minutes has elapsed since creation. -/
def isExpired (settings : Settings) (now : Nat) (session : Session) : Bool :=
  60 * settings.max_session_duration_minutes < now - session.created_at

/-- `InMemorySessionRepository.get`: `none` when absent; when expired, the
session is deleted from the store and `none` is returned. -/
def repoGet (settings : Settings) (now : Nat) (store : Store) (sid : String) :
    Option Session × Store :=
  match store.find sid with
  | none => (none, store)
  | some session =>
    if isExpired settings now session then (none, store.erase sid)
    else (some session, store)

/-- `InMemorySessionRepository.get_or_create`: reuse a live stored session,
otherwise create and store a fresh one (its uuid-based id is the external
parameter `freshId`). -/
def repoGetOrCreate (settings : Settings) (now : Nat) (store : Store)
    (sid : Option String) (freshId : String) : Session × Store :=
  let fresh := fun () =>
    let s := Session.new freshId now
    (s, store.put s)
  match sid with
  | some sid' =>
    match repoGet settings now store sid' with
    | (some session, store') => (session, store')
    | (none, store') =>
      let s := Session.new freshId now
      (s, store'.put s)
  | none => fresh ()

/-- Outcome of a session-service call: the Python exceptions
`SessionNotFoundException` / `SessionExpiredException` become explicit
variants. -/
inductive LookupOutcome
  | ok (session : Session)
  | notFound (sid : String)
  | expired (sid : String)
deriving DecidableEq, Repr

/-- `SessionService.get_or_create`: repository `get_or_create`, then
`_check_duration`, which raises `SessionExpiredException` if the returned
session is expired. -/
def serviceGetOrCreate (settings : Settings) (now : Nat) (store : Store)
    (sid : Option String) (freshId : String) : LookupOutcome × Store :=
  let (session, store') := repoGetOrCreate settings now store sid freshId
  if isExpired settings now session then (.expired session.id, store')
  else (.ok session, store')

/-- `SessionService.get_session`: repository `get`, raising
`SessionNotFoundException` on `None`. -/
def serviceGetSession (settings : Settings) (now : Nat) (store : Store)
    (sid : String) : LookupOutcome × Store :=
  match repoGet settings now store sid with
  | (none, store') => (.notFound sid, store')
  | (some session, store') => (.ok session, store')

/-! ## Public session mutations (`SessionService`) and reachability -/

/-- `SessionService.add_user_message`: append the scored user message, then
`update_risk`. -/
def addUserMessage (session : Session) (now : Nat) (content : String)
    (risk_score : Int) (risk_level : RiskLevel) : Session :=
  (session.add_message now "user" content (some risk_score)).update_risk risk_level

/-- `SessionService.add_bot_message`: append an assistant message with no
risk score. -/
def addBotMessage (session : Session) (now : Nat) (content : String) : Session :=
  session.add_message now "assistant" content none

/-- `SessionService.mark_triage_activated`. -/
def markTriageActivated (session : Session) : Session :=
  { session with triage_activated := true }

/-- `SessionService.mark_handoff`. -/
def markHandoff (session : Session) : Session :=
  { session with human_handoff := true }

/-- The public session-mutating operations of `SessionService` (message
append with risk update, and the two flag setters). -/
inductive SessionOp
  | userMsg (now : Nat) (content : String) (risk_score : Int) (risk_level : RiskLevel)
  | botMsg (now : Nat) (content : String)
  | markTriage
  | markHandoffOp
deriving DecidableEq, Repr

/-- Apply one public operation to a session. -/
def applyOp (session : Session) (op : SessionOp) : Session :=
  match op with
  | .userMsg now content score level => addUserMessage session now content score level
  | .botMsg now content => addBotMessage session now content
  | .markTriage => markTriageActivated session
  | .markHandoffOp => markHandoff session

/-- A session reachable from a fresh one through a sequence of public
operations. -/
def runOps (ops : List SessionOp) (start : Session) : Session :=
  ops.foldl applyOp start

/-- Number of user-authored messages in the history. -/
def userMessageCount (session : Session) : Nat :=
  (session.messages.filter (fun m => m.role == "user")).length

/-! ## Turn pipeline (`app/routers/chat.py`, `send_message`, together with
`ChatbotService.generate_response` in `app/services/chatbot.py`)

The anonymizer, the LLM provider and the response validator are external
collaborators and enter as function parameters.  The trace records the exact
input each collaborator received during the turn. -/

/-- The message inputs handed to each collaborator during one turn, plus the
turn's outputs. -/
structure TurnTrace where
  scorerInput : String
  triageInput : String
  /-- The message the LLM provider received, `none` when a triage override
  suppressed generation entirely. -/
  generatorInput : Option String
  botResponse : String
  triage : TriageResult
  sessionAfter : Session

/-- `send_message` after session resolution: score the raw message against
the pre-turn session, append the scored user message, run triage on the raw
message, fold the triage flags in monotonically, pick the override or the
generated reply (`generate_response` anonymizes before calling the LLM and
validates the raw LLM output), and append the reply as an assistant message.
The override truthiness test `if triage.override_response:` coincides with an
is-some test because every override text the evaluator produces is non-empty. -/
def processTurnTrace (settings : Settings) (tiers : List KeywordTier)
    (resources : List CrisisResource)
    (anonymize : String → String) (llm : String → Session → String)
    (validate : String → String)
    (now : Nat) (session : Session) (userMessage : String) : TurnTrace :=
  let risk_score : Nat := compute tiers userMessage session
  let risk_level := classify settings (risk_score : Int)
  let session1 := addUserMessage session now userMessage (risk_score : Int) risk_level
  let triage := evaluate settings resources userMessage (risk_score : Int) risk_level session1
  let session2 := if triage.triage_activated then markTriageActivated session1 else session1
  let session3 := if triage.human_handoff then markHandoff session2 else session2
  let generatorInput : Option String :=
    match triage.override_response with
    | some _ => none
    | none => some (anonymize userMessage)
  let botResponse : String :=
    match triage.override_response with
    | some override => override
    | none => validate (llm (anonymize userMessage) session3)
  let session4 := addBotMessage session3 now botResponse
  { scorerInput := userMessage
    triageInput := userMessage
    generatorInput := generatorInput
    botResponse := botResponse
    triage := triage
    sessionAfter := session4 }

/-- The session state after one processed turn. -/
def processTurn (settings : Settings) (tiers : List KeywordTier)
    (resources : List CrisisResource)
    (anonymize : String → String) (llm : String → Session → String)
    (validate : String → String)
    (now : Nat) (session : Session) (userMessage : String) : Session :=
  (processTurnTrace settings tiers resources anonymize llm validate
    now session userMessage).sessionAfter

/-- A sequence of turns applied to one session, each with its instant and
user message. -/
def processTurns (settings : Settings) (tiers : List KeywordTier)
    (resources : List CrisisResource)
    (anonymize : String → String) (llm : String → Session → String)
    (validate : String → String)
    (turns : List (Nat × String)) (session : Session) : Session :=
  turns.foldl
    (fun s turn =>
      processTurn settings tiers resources anonymize llm validate turn.1 s turn.2)
    session

/-- The history signal as the spec words it (§4.1 item 5): checked in order,
first match wins — prior HIGH/CRITICAL count ≥ 2 gives 15; else cumulative
prior risk over 100 gives 10; else at least 5 prior scored user messages with
average score above 30 give 8; else 0.  Stated from the spec's words, to be
compared with the source-derived `scoreHistory`. -/
def historySignalSpec (session : Session) : Nat :=
  if 2 ≤ session.high_risk_count then 15
  else if 100 < session.cumulative_risk then 10
  else if 5 ≤ session.risk_scores.length ∧
      30 * (session.risk_scores.length : Int) < session.risk_scores.sum then 8
  else 0

/-! ## Helper lemmas: field projections of the session mutations -/

@[simp]
theorem add_message_human_handoff (s : Session) (now : Nat) (r c : String)
    (k : Option Int) : (s.add_message now r c k).human_handoff = s.human_handoff := by
  unfold Session.add_message; cases k <;> rfl

@[simp]
theorem add_message_triage_activated (s : Session) (now : Nat) (r c : String)
    (k : Option Int) : (s.add_message now r c k).triage_activated = s.triage_activated := by
  unfold Session.add_message; cases k <;> rfl

@[simp]
theorem add_message_high_risk_count (s : Session) (now : Nat) (r c : String)
    (k : Option Int) : (s.add_message now r c k).high_risk_count = s.high_risk_count := by
  unfold Session.add_message; cases k <;> rfl

@[simp]
theorem add_message_messages (s : Session) (now : Nat) (r c : String)
    (k : Option Int) :
    (s.add_message now r c k).messages =
      s.messages ++ [{ role := r, content := c, risk_score := k, timestamp := now }] := by
  unfold Session.add_message; cases k <;> rfl

@[simp]
theorem add_message_some_risk_scores (s : Session) (now : Nat) (r c : String)
    (v : Int) : (s.add_message now r c (some v)).risk_scores = s.risk_scores ++ [v] := rfl

@[simp]
theorem add_message_some_cumulative (s : Session) (now : Nat) (r c : String)
    (v : Int) :
    (s.add_message now r c (some v)).cumulative_risk = s.cumulative_risk + v := rfl

@[simp]
theorem add_message_none_risk_scores (s : Session) (now : Nat) (r c : String) :
    (s.add_message now r c none).risk_scores = s.risk_scores := rfl

@[simp]
theorem add_message_none_cumulative (s : Session) (now : Nat) (r c : String) :
    (s.add_message now r c none).cumulative_risk = s.cumulative_risk := rfl

@[simp]
theorem update_risk_human_handoff (s : Session) (l : RiskLevel) :
    (s.update_risk l).human_handoff = s.human_handoff := rfl

@[simp]
theorem update_risk_triage_activated (s : Session) (l : RiskLevel) :
    (s.update_risk l).triage_activated = s.triage_activated := rfl

@[simp]
theorem update_risk_risk_scores (s : Session) (l : RiskLevel) :
    (s.update_risk l).risk_scores = s.risk_scores := rfl

@[simp]
theorem update_risk_cumulative (s : Session) (l : RiskLevel) :
    (s.update_risk l).cumulative_risk = s.cumulative_risk := rfl

@[simp]
theorem update_risk_messages (s : Session) (l : RiskLevel) :
    (s.update_risk l).messages = s.messages := rfl

@[simp]
theorem mark_handoff_human_handoff (s : Session) :
    (markHandoff s).human_handoff = true := rfl

@[simp]
theorem mark_handoff_triage_activated (s : Session) :
    (markHandoff s).triage_activated = s.triage_activated := rfl

@[simp]
theorem mark_handoff_risk_scores (s : Session) :
    (markHandoff s).risk_scores = s.risk_scores := rfl

@[simp]
theorem mark_triage_triage_activated (s : Session) :
    (markTriageActivated s).triage_activated = true := rfl

@[simp]
theorem mark_triage_human_handoff (s : Session) :
    (markTriageActivated s).human_handoff = s.human_handoff := rfl

@[simp]
theorem mark_triage_risk_scores (s : Session) :
    (markTriageActivated s).risk_scores = s.risk_scores := rfl

/-! ## Claim theorems -/

/-- Claim C2: `classify` places every integer score into exactly the band the
spec describes, with inclusive lower bounds, for any configured thresholds
that are ordered sanely (`30 ≤ high ≤ critical`, as the defaults 60/80 are);
and at the default thresholds the spec's boundary table holds:
classify(59)=MEDIUM, classify(60)=HIGH, classify(79)=HIGH,
classify(80)=CRITICAL. -/
theorem classify_bands (settings : Settings) (s : Int)
    (hhigh : 30 ≤ settings.risk_threshold_high)
    (horder : settings.risk_threshold_high ≤ settings.risk_threshold_critical) :
    (classify settings s = .critical ↔ settings.risk_threshold_critical ≤ s) ∧
    (classify settings s = .high ↔
      settings.risk_threshold_high ≤ s ∧ s < settings.risk_threshold_critical) ∧
    (classify settings s = .medium ↔ 30 ≤ s ∧ s < settings.risk_threshold_high) ∧
    (classify settings s = .low ↔ s < 30) ∧
    classify defaultSettings 59 = .medium ∧
    classify defaultSettings 60 = .high ∧
    classify defaultSettings 79 = .high ∧
    classify defaultSettings 80 = .critical := by
  refine ⟨?_, ?_, ?_, ?_, by decide, by decide, by decide, by decide⟩ <;>
    (unfold classify; split_ifs <;> simp_all <;> omega)

/-- Witness for C2 at concrete inputs: the hypotheses hold for the default
settings, and the band equivalences decide concrete scores. -/
theorem classify_bands_witness :
    classify defaultSettings 45 = .medium ∧ classify defaultSettings 95 = .critical := by
  have h45 := classify_bands defaultSettings 45 (by decide) (by decide)
  have h95 := classify_bands defaultSettings 95 (by decide) (by decide)
  exact ⟨h45.2.2.1.mpr (by decide), h95.1.mpr (by decide)⟩

/-- Claim C4: whenever the message contains (case-insensitively) a phrase
from the fixed bilingual human-request list, `evaluate` activates triage,
sets the handoff, attaches the fixed user-requested reply and reason
user-requested — for every risk score, in particular scores at or above the
critical threshold. -/
theorem user_request_outranks_all (settings : Settings)
    (resources : List CrisisResource) (message : String) (risk_score : Int)
    (risk_level : RiskLevel) (session : Session)
    (hmatch : HUMAN_REQUEST_PHRASES.any
      (fun p => containsSub (lowerChars message.data) p.data) = true) :
    evaluate settings resources message risk_score risk_level session =
      { triage_activated := true
        human_handoff := true
        crisis_resources := []
        override_response := some RESPONSE_USER_REQUESTED
        handoff_reason := some .user_requested } := by
  unfold evaluate checkUserRequestsHuman
  simp [hmatch]

/-- Witness for C4: "I want to talk to a real person" with score 95 (above
the default critical threshold 80) yields reason user-requested, not
critical-risk. -/
theorem user_request_outranks_all_witness :
    evaluate defaultSettings [] "I want to talk to a real person" 95 .critical
        (Session.new "s" 0) =
      { triage_activated := true
        human_handoff := true
        crisis_resources := []
        override_response := some RESPONSE_USER_REQUESTED
        handoff_reason := some .user_requested } :=
  user_request_outranks_all defaultSettings [] "I want to talk to a real person"
    95 .critical (Session.new "s" 0) (by decide)

/-- Claim C10: on a message with no alphabetic characters the behavioral
signal is total — the guarded uppercase-ratio sub-check contributes 0 (no
division is ever performed on the empty alphabetic list) and the behavioral
score is the sum of the length and punctuation sub-checks capped at 20. -/
theorem behavioral_no_alpha_total (message : List Char)
    (h : ∀ c ∈ message, c.isAlpha = false) :
    behavioralCapsPoints message = 0 ∧
    scoreBehavioral message =
      min (behavioralLengthPoints message + behavioralPunctuationPoints message)
        MAX_BEHAVIORAL_SCORE := by
  have hfilter : message.filter Char.isAlpha = [] := by
    rw [List.filter_eq_nil_iff]
    intro c hc
    simp [h c hc]
  have hcaps : behavioralCapsPoints message = 0 := by
    unfold behavioralCapsPoints
    simp [hfilter]
  refine ⟨hcaps, ?_⟩
  unfold scoreBehavioral
  rw [hcaps, Nat.add_zero]

/-- Witness for C10 on the digits-and-punctuation message "123!!!". -/
theorem behavioral_no_alpha_total_witness :
    behavioralCapsPoints "123!!!".data = 0 ∧
    scoreBehavioral "123!!!".data =
      min (behavioralLengthPoints "123!!!".data
            + behavioralPunctuationPoints "123!!!".data)
        MAX_BEHAVIORAL_SCORE :=
  behavioral_no_alpha_total "123!!!".data (by decide)

/-- Claim C1 is violated by the code: a session created at instant 0 with
the default 60-minute maximum, accessed at minute 61, is NOT surfaced as a
SessionExpired failure.  The turn-processing entry (`get_or_create`)
silently replaces it with a brand-new session (the repository deletes the
expired entry and returns `None`, so `SessionService._check_duration` only
ever sees the fresh session), and a direct lookup (`get_session`) raises
SessionNotFound instead of SessionExpired.  Only the "absent from the store
afterwards" part of the claim holds. -/
theorem expired_session_silently_replaced :
    (serviceGetOrCreate defaultSettings (61 * 60) [("s1", Session.new "s1" 0)]
        (some "s1") "sess_fresh").1 =
      .ok (Session.new "sess_fresh" (61 * 60)) ∧
    (serviceGetSession defaultSettings (61 * 60) [("s1", Session.new "s1" 0)]
        "s1").1 = .notFound "s1" ∧
    Store.find (serviceGetOrCreate defaultSettings (61 * 60)
        [("s1", Session.new "s1" 0)] (some "s1") "sess_fresh").2 "s1" = none := by
  decide

/-- Claim C5: when rules 1-3 do not match (no human-request phrase, score
below both thresholds), `evaluate` returns the check-in override with triage
NOT activated and handoff NOT set exactly when the session's message count
has reached the configured threshold and triage has never been activated;
in every other case — in particular whenever `triage_activated` is already
true — it returns the fully inert result with no override. -/
theorem long_session_checkin (settings : Settings)
    (resources : List CrisisResource) (message : String) (risk_score : Int)
    (risk_level : RiskLevel) (session : Session)
    (hphrase : HUMAN_REQUEST_PHRASES.any
      (fun p => containsSub (lowerChars message.data) p.data) = false)
    (hcrit : risk_score < settings.risk_threshold_critical)
    (hhigh : risk_score < settings.risk_threshold_high) :
    evaluate settings resources message risk_score risk_level session =
      (if session.message_count ≥ settings.session_max_messages_before_checkin ∧
          session.triage_activated = false then
        { triage_activated := false
          human_handoff := false
          crisis_resources := []
          override_response := some RESPONSE_LONG_SESSION
          handoff_reason := none }
      else {}) := by
  have hc : ¬ risk_score ≥ settings.risk_threshold_critical := by omega
  have hh : ¬ risk_score ≥ settings.risk_threshold_high := by omega
  unfold evaluate checkUserRequestsHuman checkCriticalRisk checkHighRisk checkLongSession
  simp only [hphrase, Bool.false_eq_true, if_false, if_neg hc, if_neg hh]
  split_ifs <;> rfl

/-- Witness for C5: a calm message on a 16-message session with
`triage_activated = false` yields the check-in override with inert flags. -/
theorem long_session_checkin_witness :
    evaluate defaultSettings [] "Tell me more" 10 .low
        { Session.new "s" 0 with
          messages := List.replicate 16
            { role := "user", content := "m", risk_score := none, timestamp := 0 } } =
      { triage_activated := false
        human_handoff := false
        crisis_resources := []
        override_response := some RESPONSE_LONG_SESSION
        handoff_reason := none } := by
  have h := long_session_checkin defaultSettings [] "Tell me more" 10 .low
    { Session.new "s" 0 with
      messages := List.replicate 16
        { role := "user", content := "m", risk_score := none, timestamp := 0 } }
    (by decide) (by decide) (by decide)
  rw [h]
  rfl

/-- Claim C3: `compute` is exactly the clamp-at-100 of the five signal
values, each signal is individually capped (30/20/20/15/15), the result is
always at most 100, and an input maxing every signal yields exactly 100. -/
theorem compute_clamped (tiers : List KeywordTier) (message : String)
    (session : Session) :
    compute tiers message session =
      min 100 (scoreKeywords tiers (lowerChars message.data)
        + scoreSentiment (lowerChars message.data)
        + scoreBehavioral message.data
        + scoreEscalation (lowerChars message.data)
        + scoreHistory session) ∧
    scoreKeywords tiers (lowerChars message.data) ≤ 30 ∧
    scoreSentiment (lowerChars message.data) ≤ 20 ∧
    scoreBehavioral message.data ≤ 20 ∧
    scoreEscalation (lowerChars message.data) ≤ 15 ∧
    scoreHistory session ≤ 15 ∧
    compute tiers message session ≤ 100 ∧
    (scoreKeywords tiers (lowerChars message.data) = 30 →
      scoreSentiment (lowerChars message.data) = 20 →
      scoreBehavioral message.data = 20 →
      scoreEscalation (lowerChars message.data) = 15 →
      scoreHistory session = 15 →
      compute tiers message session = 100) := by
  have hmin : compute tiers message session =
      min 100 (scoreKeywords tiers (lowerChars message.data)
        + scoreSentiment (lowerChars message.data)
        + scoreBehavioral message.data
        + scoreEscalation (lowerChars message.data)
        + scoreHistory session) := by
    unfold compute
    rw [Nat.min_comm]
    rfl
  refine ⟨hmin, ?_, ?_, ?_, ?_, ?_, ?_, ?_⟩
  · exact Nat.min_le_right _ _
  · exact Nat.min_le_right _ _
  · exact Nat.min_le_right _ _
  · unfold scoreEscalation
    split_ifs <;> decide
  · unfold scoreHistory
    split_ifs <;> decide
  · rw [hmin]
    exact Nat.min_le_left _ _
  · intro hk hs hb he hh
    rw [hmin, hk, hs, hb, he, hh]
    decide

set_option maxRecDepth 40000 in
/-- Witness for C3: a 311-character message matching a weight-30 keyword
tier, four negative-sentiment words, all behavioral sub-checks and an
escalation phrase, on a session with two prior high-risk messages, maxes
every signal and clamps to exactly 100. -/
theorem compute_clamped_witness :
    compute [{ weight_max := 30, keywords := ["helpme"] }]
        ⟨List.replicate 260 'A'
          ++ " terrible awful worst horrible i give up helpme!!!".data⟩
        { Session.new "s" 0 with high_risk_count := 2 } = 100 :=
  (compute_clamped [{ weight_max := 30, keywords := ["helpme"] }]
      ⟨List.replicate 260 'A'
        ++ " terrible awful worst horrible i give up helpme!!!".data⟩
      { Session.new "s" 0 with high_risk_count := 2 }).2.2.2.2.2.2.2
    (by decide) (by decide) (by decide) (by decide) (by decide)

/-! ## Helper lemmas for the turn pipeline and the operation semantics -/

@[simp]
theorem update_risk_high_risk_count (s : Session) (l : RiskLevel) :
    (s.update_risk l).high_risk_count =
      (if l = .high ∨ l = .critical then s.high_risk_count + 1
       else s.high_risk_count) := rfl

/-- One public operation preserves the risk-accounting invariant. -/
theorem applyOp_preserves_invariant (s : Session) (op : SessionOp)
    (h1 : s.cumulative_risk = s.risk_scores.sum)
    (h2 : s.risk_scores.length ≤ userMessageCount s) :
    (applyOp s op).cumulative_risk = (applyOp s op).risk_scores.sum ∧
    (applyOp s op).risk_scores.length ≤ userMessageCount (applyOp s op) := by
  cases op with
  | userMsg now content score level =>
    constructor
    · simp [applyOp, addUserMessage, h1]
    · simp [applyOp, addUserMessage, userMessageCount, List.filter_append]
      simpa [userMessageCount] using h2
  | botMsg now content =>
    constructor
    · simp [applyOp, addBotMessage, h1]
    · simp [applyOp, addBotMessage, userMessageCount, List.filter_append]
      simpa [userMessageCount] using h2
  | markTriage =>
    exact ⟨by simpa [applyOp, markTriageActivated] using h1,
           by simpa [applyOp, markTriageActivated, userMessageCount] using h2⟩
  | markHandoffOp =>
    exact ⟨by simpa [applyOp, markHandoff] using h1,
           by simpa [applyOp, markHandoff, userMessageCount] using h2⟩

/-- One public operation never decreases the high-risk counter. -/
theorem applyOp_high_risk_mono (s : Session) (op : SessionOp) :
    s.high_risk_count ≤ (applyOp s op).high_risk_count := by
  cases op with
  | userMsg now content score level =>
    simp only [applyOp, addUserMessage, update_risk_high_risk_count,
      add_message_high_risk_count]
    split_ifs <;> omega
  | botMsg now content => simp [applyOp, addBotMessage]
  | markTriage => exact Nat.le_refl _
  | markHandoffOp => exact Nat.le_refl _

/-- One processed turn never clears either monotone flag. -/
theorem processTurn_flags_mono (settings : Settings) (tiers : List KeywordTier)
    (resources : List CrisisResource) (anonymize : String → String)
    (llm : String → Session → String) (validate : String → String)
    (now : Nat) (s : Session) (m : String) :
    (s.human_handoff = true →
      (processTurn settings tiers resources anonymize llm validate now s m).human_handoff
        = true) ∧
    (s.triage_activated = true →
      (processTurn settings tiers resources anonymize llm validate now s m).triage_activated
        = true) := by
  unfold processTurn processTurnTrace
  simp only [addBotMessage, addUserMessage, add_message_human_handoff,
    add_message_triage_activated]
  constructor <;> intro h <;>
    (split_ifs <;>
      simp_all [markHandoff, markTriageActivated])

/-- The recorded scores after a turn: the pre-turn list with the score of the
pre-turn `compute` appended (independently of the collaborators). -/
theorem processTurn_risk_scores_eq (settings : Settings)
    (tiers : List KeywordTier) (resources : List CrisisResource)
    (anonymize : String → String) (llm : String → Session → String)
    (validate : String → String) (now : Nat) (session : Session)
    (message : String) :
    (processTurn settings tiers resources anonymize llm validate
        now session message).risk_scores =
      session.risk_scores ++ [(compute tiers message session : Int)] := by
  unfold processTurn processTurnTrace
  simp only [addBotMessage, addUserMessage, add_message_none_risk_scores]
  split_ifs <;>
    simp [markHandoff, markTriageActivated]

/-- Claim C7: every session reachable from a fresh one through the public
operations (scored user-message append, bot-message append, flag setters)
keeps `cumulative_risk` equal to the sum of `risk_scores` and at most one
stored score per user-authored message; and the high-risk counter never
decreases under any operation. -/
theorem reachable_session_invariants (id : String) (now : Nat)
    (ops : List SessionOp) :
    ((runOps ops (Session.new id now)).cumulative_risk =
        (runOps ops (Session.new id now)).risk_scores.sum ∧
      (runOps ops (Session.new id now)).risk_scores.length ≤
        userMessageCount (runOps ops (Session.new id now))) ∧
    ∀ (s : Session) (op : SessionOp),
      s.high_risk_count ≤ (applyOp s op).high_risk_count := by
  constructor
  · have main : ∀ (l : List SessionOp) (s : Session),
        s.cumulative_risk = s.risk_scores.sum →
        s.risk_scores.length ≤ userMessageCount s →
        (runOps l s).cumulative_risk = (runOps l s).risk_scores.sum ∧
        (runOps l s).risk_scores.length ≤ userMessageCount (runOps l s) := by
      intro l
      induction l with
      | nil => exact fun s h1 h2 => ⟨h1, h2⟩
      | cons op rest ih =>
        intro s h1 h2
        have h := applyOp_preserves_invariant s op h1 h2
        simpa [runOps] using ih (applyOp s op) h.1 h.2
    exact main ops (Session.new id now) rfl (by simp [Session.new, userMessageCount])
  · exact applyOp_high_risk_mono

/-- Claim C6: across any sequence of processed turns on a session, once
`human_handoff` is true it stays true — whatever the turns' scores or triage
outcomes — and likewise `triage_activated`. -/
theorem flags_monotone_over_turns (settings : Settings)
    (tiers : List KeywordTier) (resources : List CrisisResource)
    (anonymize : String → String) (llm : String → Session → String)
    (validate : String → String) (turns : List (Nat × String))
    (session : Session) :
    (session.human_handoff = true →
      (processTurns settings tiers resources anonymize llm validate
        turns session).human_handoff = true) ∧
    (session.triage_activated = true →
      (processTurns settings tiers resources anonymize llm validate
        turns session).triage_activated = true) := by
  induction turns generalizing session with
  | nil => exact ⟨fun h => h, fun h => h⟩
  | cons t rest ih =>
    have hstep := processTurn_flags_mono settings tiers resources anonymize llm
      validate t.1 session t.2
    have hrest := ih (processTurn settings tiers resources anonymize llm validate
      t.1 session t.2)
    exact ⟨fun h => hrest.1 (hstep.1 h), fun h => hrest.2 (hstep.2 h)⟩

/-- Witness for C6: a session whose flags are already set keeps both flags
after a further processed turn. -/
theorem flags_monotone_over_turns_witness :
    (processTurns defaultSettings [] [] (fun x => x) (fun _ _ => "ok")
        (fun x => x) [(0, "hi")]
        { Session.new "s" 0 with human_handoff := true, triage_activated := true
        }).human_handoff = true ∧
    (processTurns defaultSettings [] [] (fun x => x) (fun _ _ => "ok")
        (fun x => x) [(0, "hi")]
        { Session.new "s" 0 with human_handoff := true, triage_activated := true
        }).triage_activated = true := by
  have h := flags_monotone_over_turns defaultSettings [] [] (fun x => x)
    (fun _ _ => "ok") (fun x => x) [(0, "hi")]
    { Session.new "s" 0 with human_handoff := true, triage_activated := true }
  exact ⟨h.1 rfl, h.2 rfl⟩

/-- Claim C8: the turn pipeline records for the new user message exactly the
score computed against the pre-append session (the history signal therefore
sees only prior state), and the history signal itself is the ordered
first-match cascade the spec describes. -/
theorem history_scored_pre_append (settings : Settings)
    (tiers : List KeywordTier) (resources : List CrisisResource)
    (anonymize : String → String) (llm : String → Session → String)
    (validate : String → String) (now : Nat) (session : Session)
    (message : String) :
    (processTurn settings tiers resources anonymize llm validate
        now session message).risk_scores =
      session.risk_scores ++ [(compute tiers message session : Int)] ∧
    scoreHistory session = historySignalSpec session := by
  refine ⟨processTurn_risk_scores_eq settings tiers resources anonymize llm
    validate now session message, ?_⟩
  rfl

/-- Claim C9: during a processed turn the scorer and the triage evaluator
receive the raw message exactly as submitted, the LLM provider (when invoked
at all) receives exactly the anonymized form, and swapping the anonymizer
changes neither the triage outcome nor the recorded risk scores. -/
theorem raw_message_routing (settings : Settings) (tiers : List KeywordTier)
    (resources : List CrisisResource) (anonymize : String → String)
    (llm : String → Session → String) (validate : String → String)
    (now : Nat) (session : Session) (message : String) :
    (processTurnTrace settings tiers resources anonymize llm validate
        now session message).scorerInput = message ∧
    (processTurnTrace settings tiers resources anonymize llm validate
        now session message).triageInput = message ∧
    ((processTurnTrace settings tiers resources anonymize llm validate
        now session message).generatorInput = none ∨
      (processTurnTrace settings tiers resources anonymize llm validate
        now session message).generatorInput = some (anonymize message)) ∧
    ∀ anonymize2 : String → String,
      (processTurnTrace settings tiers resources anonymize2 llm validate
          now session message).triage =
        (processTurnTrace settings tiers resources anonymize llm validate
          now session message).triage ∧
      (processTurn settings tiers resources anonymize2 llm validate
          now session message).risk_scores =
        (processTurn settings tiers resources anonymize llm validate
          now session message).risk_scores := by
  refine ⟨rfl, rfl, ?_, ?_⟩
  · unfold processTurnTrace
    cases h : (evaluate settings resources message
        ((compute tiers message session : Nat) : Int)
        (classify settings ((compute tiers message session : Nat) : Int))
        (addUserMessage session now message
          ((compute tiers message session : Nat) : Int)
          (classify settings ((compute tiers message session : Nat) : Int)))).override_response <;>
      simp [h]
  · intro anonymize2
    refine ⟨rfl, ?_⟩
    rw [processTurn_risk_scores_eq, processTurn_risk_scores_eq]

end HealthAI
